import Mathlib

/-!
Verification of the w3af `ssl_certificate` audit plugin
(src/plugins/audit/ssl_certificate.py).

The development shallowly embeds the plugin code:

* `rmatchF`/`rmatch` — semantics of the anchored, case-insensitive regular
  expressions produced by `_dnsname_to_pat` (lines 229-240).  The only regex
  atoms such a pattern can contain are literal characters (from `re.escape`),
  the separator `\.`, the class `[^.]*` (a `*` inside a label) and the class
  `[^.]+` (a label that is exactly `*`), so the matcher is specialised to
  lists of these atoms.  Fuel-based recursion keeps every definition
  kernel-computable; `rmatchF_congr` shows the fuel is irrelevant once large
  enough and `rmatch` always passes a sufficient amount.
* `splitOnChar` — Python `str.split(sep)` for a one-character separator.
* `match_hostname` — lines 242-280.  The Python function either returns
  `None` (modelled `HostnameCheck.ok`), raises `ValueError` for a falsy cert
  dict (modelled `HostnameCheck.valueError`), or raises `CertificateError`
  whose message is built from the collected candidate names (modelled
  `HostnameCheck.certificateError names`; `certErrorText` rebuilds the
  message text from the collected list exactly as lines 270-280 format it).
* `audit` — lines 59-164.  Collaborator behaviour (sockets, the TLS
  library) is injected through `AuditEnv`: the SSLv2 handshake of lines
  76-82 either completes (`sslv2Accepted = true`) or raises some exception
  (`false`; lines 81-82 swallow every exception), and the strict handshake
  of lines 96-102 yields `HandshakeOutcome.sslError` (an `ssl.SSLError`
  raised by `wrap_socket`/`connect`), `HandshakeOutcome.otherError` (any
  other exception, e.g. `socket.error`), or `HandshakeOutcome.connected`
  with the peer certificate, after which the plugin itself runs
  `match_hostname`.  Dates are abstracted to day ordinals: the `notAfter`
  field is a `NotAfterField` — `parsed day` is the expiry day that lines
  144-145 compute from `cert["notAfter"]`, `missing` models a certificate
  dict without that key (the lookup on line 144 raises an uncaught
  `KeyError`), and `unparseable raw` models a present value that
  `ssl.cert_time_to_seconds` cannot parse (an uncaught `ValueError`, also
  on line 144); both escapes are `AuditOutcome.uncaught`.  The
  knowledge-base/log sinks are modelled by the returned `Finding` list, in
  emission order.
-/

/-- Regex atoms occurring in patterns produced by `_dnsname_to_pat`:
literal characters, the literal dot separator, `[^.]*` and `[^.]+`. -/
inductive RAtom where
  | lit (c : Char)
  | dot
  | nonDotStar
  | nonDotPlus
deriving DecidableEq

/-- Fuel-based matcher for a whole pattern (a list of `RAtom`) against a
whole candidate string (the pattern is anchored between `\A` and `\Z`).
Literal characters compare case-insensitively, modelling `re.IGNORECASE`. -/
def rmatchF : Nat → List RAtom → List Char → Bool
  | 0, _, _ => false
  | _ + 1, [], ds => ds.isEmpty
  | _ + 1, RAtom.lit _ :: _, [] => false
  | fuel + 1, RAtom.lit c :: ps, d :: ds =>
      (c.toLower == d.toLower) && rmatchF fuel ps ds
  | _ + 1, RAtom.dot :: _, [] => false
  | fuel + 1, RAtom.dot :: ps, d :: ds =>
      (d == '.') && rmatchF fuel ps ds
  | fuel + 1, RAtom.nonDotStar :: ps, [] => rmatchF fuel ps []
  | fuel + 1, RAtom.nonDotStar :: ps, d :: ds =>
      rmatchF fuel ps (d :: ds) || (!(d == '.') && rmatchF fuel (RAtom.nonDotStar :: ps) ds)
  | _ + 1, RAtom.nonDotPlus :: _, [] => false
  | fuel + 1, RAtom.nonDotPlus :: ps, d :: ds =>
      !(d == '.') && (rmatchF fuel ps ds || rmatchF fuel (RAtom.nonDotPlus :: ps) ds)

/-- Matcher with sufficient fuel (each `rmatchF` call strictly decreases
`ps.length + ds.length`, so this fuel can never run out). -/
def rmatch (ps : List RAtom) (ds : List Char) : Bool :=
  rmatchF (ps.length + ds.length + 1) ps ds

/-- Python `str.split(sep)` for a single-character separator, on character
lists.  `splitOnChar sep [] = [[]]`, matching Python `"".split(sep) == [""]`. -/
def splitOnChar (sep : Char) : List Char → List (List Char)
  | [] => [[]]
  | c :: cs =>
    if c = sep then [] :: splitOnChar sep cs
    else
      match splitOnChar sep cs with
      | [] => [[c]]
      | l :: ls => (c :: l) :: ls

/-- One fragment of `_dnsname_to_pat` (lines 231-239): the fragment `*`
becomes `[^.]+`; otherwise the fragment is `re.escape`d (making every
character a literal) and each escaped `\*` is replaced by `[^.]*`. -/
def fragToAtoms (frag : List Char) : List RAtom :=
  if frag = ['*'] then [RAtom.nonDotPlus]
  else frag.map (fun c => if c = '*' then RAtom.nonDotStar else RAtom.lit c)

/-- Model of `_dnsname_to_pat` (lines 229-240): split the DNS name on dots, compile
each fragment, join with literal dots, anchored and case-insensitive. -/
def dnsname_to_pat (dn : String) : List RAtom :=
  List.intercalate [RAtom.dot] ((splitOnChar '.' dn.data).map fragToAtoms)

/-- The test `_dnsname_to_pat(dn).match(hostname)` viewed as a Boolean (the regex is
anchored on both sides, so `match` succeeds exactly on a full match). -/
def pat_matches (dn : String) (hostname : String) : Bool :=
  rmatch (dnsname_to_pat dn) hostname.data

/-- The `notAfter` entry of the certificate dict, as consumed by line 144
(`ssl.cert_time_to_seconds(cert["notAfter"])`): `missing` models a dict
without the key (the lookup raises `KeyError`); `unparseable raw` models a
present value that `cert_time_to_seconds` rejects (it raises `ValueError`);
`parsed day` abstracts a well-formed value to the expiry day ordinal that
lines 144-145 turn it into. -/
inductive NotAfterField where
  | missing
  | unparseable (raw : String)
  | parsed (day : Int)
deriving DecidableEq

/-- Whether the dict carries a `notAfter` key at all (for dict truthiness). -/
def NotAfterField.present : NotAfterField → Bool
  | NotAfterField.missing => false
  | NotAfterField.unparseable _ => true
  | NotAfterField.parsed _ => true

/-- Whether line 144 can turn the `notAfter` entry into a date without
raising. -/
def NotAfterField.parseable : NotAfterField → Bool
  | NotAfterField.parsed _ => true
  | NotAfterField.missing => false
  | NotAfterField.unparseable _ => false

/-- The decoded peer-certificate dict returned by `SSLSocket.getpeercert()`.
`none` in a field models the absence of that key; `otherKeys` records
whether the dict holds any further keys (relevant only to Python dict
truthiness).  See `NotAfterField` for the `notAfter` entry. -/
structure PeerCert where
  subjectAltName : Option (List (String × String))
  subject : Option (List (List (String × String)))
  notAfter : NotAfterField
  otherKeys : Bool
deriving DecidableEq

/-- Python truthiness of the certificate dict (`if not cert:`): a dict is
truthy iff it has at least one key. -/
def PeerCert.truthy (c : PeerCert) : Bool :=
  c.subjectAltName.isSome || c.subject.isSome || c.notAfter.present || c.otherKeys

/-- Result of `match_hostname`: normal return, `ValueError` (falsy cert), or
`CertificateError` carrying the collected candidate names from which the
message is formatted (see `certErrorText`). -/
inductive HostnameCheck where
  | ok
  | valueError (msg : String)
  | certificateError (dnsnames : List String)
deriving DecidableEq

/-- The loop of lines 254-258 (and its reuse on lines 262-269): scan the
`(key, value)` pairs; on the first value of the wanted key whose compiled
pattern matches the hostname, return early (`none`); otherwise collect the
values of the wanted key in order (`some collected`). -/
def scanKey (key : String) (hostname : String) : List (String × String) → Option (List String)
  | [] => some []
  | (k, v) :: rest =>
    if k = key then
      if pat_matches v hostname = true then none
      else Option.map (fun l => v :: l) (scanKey key hostname rest)
    else scanKey key hostname rest

/-- The nested subject loop of lines 262-269: scan each RDN of the subject
for `commonName` attributes, with the same early-return-on-match behaviour. -/
def cnScan (hostname : String) : List (List (String × String)) → Option (List String)
  | [] => some []
  | sub :: rest =>
    match scanKey "commonName" hostname sub with
    | none => none
    | some l => Option.map (fun l2 => l ++ l2) (cnScan hostname rest)

/-- Model of `match_hostname` (lines 242-280). -/
def match_hostname (cert : PeerCert) (hostname : String) : HostnameCheck :=
  if cert.truthy = false then HostnameCheck.valueError "empty or no certificate"
  else
    match scanKey "DNS" hostname (cert.subjectAltName.getD []) with
    | none => HostnameCheck.ok
    | some dnsnames =>
      if dnsnames.isEmpty then
        match cnScan hostname (cert.subject.getD []) with
        | none => HostnameCheck.ok
        | some names => HostnameCheck.certificateError names
      else HostnameCheck.certificateError dnsnames

/-- The values attached to a given key, in order. -/
def keyValues (key : String) (l : List (String × String)) : List String :=
  l.filterMap (fun p => if p.1 = key then some p.2 else none)

/-- All SAN entries of type DNS, in order (the `dnsnames` list that lines
254-258 collect when no entry matches). -/
def sanDNSValues (cert : PeerCert) : List String :=
  keyValues "DNS" (cert.subjectAltName.getD [])

/-- An apostrophe character (the message text of `CertificateError` uses
one). -/
def apos : String := String.singleton (Char.ofNat 39)

/-- The `CertificateError` message of lines 270-280, formatted from the
hostname and the collected candidate names. -/
def certErrorText (hostname : String) (dnsnames : List String) : String :=
  if dnsnames.length > 1 then
    "hostname " ++ hostname ++ " doesn" ++ apos ++ "t match either of " ++
      String.intercalate ", " dnsnames
  else if dnsnames.length = 1 then
    "hostname " ++ hostname ++ " doesn" ++ apos ++ "t match " ++ dnsnames.headD ""
  else
    "no appropriate commonName or subjectAltName fields were found"

/-- Finding severity.  w3af `vuln` objects get an explicit severity
(`severity.LOW` here); `info` objects are informational. -/
inductive Severity where
  | info
  | low
  | medium
  | high
deriving DecidableEq

/-- The knowledge-base tag under which each finding is appended
(`kb.kb.append(self, tag, v)`). -/
inductive FindingKind where
  | ssl_v2
  | invalid_ssl_cert
  | invalid_ssl_connect
  | ssl_soon_expire
  | certificate
deriving DecidableEq

/-- One finding appended to the knowledge base. -/
structure Finding where
  kind : FindingKind
  severity : Severity
  name : String
  desc : String
deriving DecidableEq

/-- The `ssl_v2` vulnerability of lines 84-93. -/
def sslv2Finding (domain : String) : Finding :=
  Finding.mk FindingKind.ssl_v2 Severity.low "Insecure SSL version"
    ("The target host \"" ++ domain ++
      "\" has SSL version 2 enabled which is known to be insecure.")

/-- The `invalid_ssl_cert` vulnerability of lines 114-120. -/
def invalidCertFinding (domain details : String) : Finding :=
  Finding.mk FindingKind.invalid_ssl_cert Severity.low "Invalid SSL certificate"
    ("\"" ++ domain ++ "\" uses an invalid security certificate. " ++
      "The certificate is not trusted because: \"" ++ details ++ "\".")

/-- The `invalid_ssl_connect` informational finding of lines 121-126. -/
def invalidConnFinding (domain details : String) : Finding :=
  Finding.mk FindingKind.invalid_ssl_connect Severity.info "Invalid SSL connection"
    ("\"" ++ domain ++ "\" has an invalid SSL configuration. Technical details: \"" ++
      details ++ "\"")

/-- The `ssl_soon_expire` informational finding of lines 146-153. -/
def soonExpireFinding (domain : String) : Finding :=
  Finding.mk FindingKind.ssl_soon_expire Severity.info "Soon expire SSL certificate"
    ("The certificate for \"" ++ domain ++ "\" will expire soon.")

/-- The data of a successful strict handshake: the decoded certificate plus
the strings the dump reads from the connection.  `certRepr` stands for
`pformat(cert)`, `cipherRepr` for `pformat(cipher)`, and `certPEM` for
`ssl.DER_cert_to_PEM_cert(cert_der)` — opaque collaborator-produced text as
far as the plugin logic is concerned. -/
structure TLSConn where
  cert : PeerCert
  certRepr : String
  certPEM : String
  cipherRepr : String
deriving DecidableEq

/-- The indentation step `res.replace(newline, newline + 4 spaces)` of line 175,
on character lists. -/
def indentChars : List Char → List Char
  | [] => []
  | c :: rest =>
    if c = '\n' then '\n' :: ' ' :: ' ' :: ' ' :: ' ' :: indentChars rest
    else c :: indentChars rest

/-- Model of `_dump_ssl_info` (lines 167-177). -/
def dump_ssl_info (conn : TLSConn) : String :=
  let res := "\n== Certificate information ==\n" ++ conn.certRepr ++
    "\n\n== Used cipher ==\n" ++ conn.cipherRepr ++
    "\n\n== Certificate dump ==\n" ++ conn.certPEM
  "    " ++ String.mk (indentChars res.data)

/-- The `certificate` informational finding of lines 155-164. -/
def certInfoFinding (conn : TLSConn) : Finding :=
  Finding.mk FindingKind.certificate Severity.info "SSL Certificate"
    ("This is the information about the SSL certificate used in the target site:\n" ++
      dump_ssl_info conn)

/-- Outcome of the strict handshake attempt of lines 96-102, as produced by
the TLS collaborator (`ssl.wrap_socket` + `connect` + `getpeercert`). -/
inductive HandshakeOutcome where
  | sslError (msg : String)
  | otherError (msg : String)
  | connected (conn : TLSConn)
deriving DecidableEq

/-- Collaborator behaviour for one target: whether the SSLv2 handshake of
lines 76-82 completed (any exception there is swallowed, so a Bool
suffices), and the strict handshake outcome. -/
structure AuditEnv where
  sslv2Accepted : Bool
  handshake : HandshakeOutcome
deriving DecidableEq

/-- Plugin state (`__init__`, lines 52-57): the `scalable_bloomfilter` of
already tested domains (modelled as an exact set, its intended behaviour),
the `minExpireDays` option and the CA file path. -/
structure PluginState where
  already_tested : List String
  min_expire_days : Int
  ca_file : String
deriving DecidableEq

/-- The state built by `__init__` (lines 52-57). -/
def initialState : PluginState :=
  PluginState.mk [] 30 "plugins/audit/ssl_certificate/ca.pem"

/-- How one call to `audit` terminates: a normal return, or an exception
escaping the method. -/
inductive AuditOutcome where
  | normal
  | uncaught (msg : String)
deriving DecidableEq

/-- Tests whether `needle` starts `hay` (character-wise, exact). -/
def listStartsWith : List Char → List Char → Bool
  | [], _ => true
  | _ :: _, [] => false
  | a :: as, b :: bs => (a == b) && listStartsWith as bs

/-- Python `needle in hay` substring containment on character lists. -/
def hasSubList (needle : List Char) : List Char → Bool
  | [] => needle.isEmpty
  | c :: rest => listStartsWith needle (c :: rest) || hasSubList needle rest

/-- The Python test `"CERTIFICATE" in details` of line 111. -/
def hasCertSubstring (s : String) : Bool :=
  hasSubList "CERTIFICATE".data s.data

/-- Python `str.upper()` (ASCII, which is all the plugin compares). -/
def pyUpper (s : String) : String :=
  String.mk (s.data.map Char.toUpper)

/-- Lines 108-110: split the `ssl.SSLError` text on `:`; when that yields
exactly 7 chunks, keep only chunks 5 and 6 rejoined with `:`; otherwise
keep the full text. -/
def deriveDetails (msg : String) : String :=
  match splitOnChar ':' msg.data with
  | [_, _, _, _, _, c5, c6] => String.mk (c5 ++ ':' :: c6)
  | _ => msg

/-- The day difference computed on line 145:
`(date(exp) - date.today()).days`, on day ordinals. -/
def daysUntilExpiry (notAfterDay today : Int) : Int :=
  notAfterDay - today

/-- Lines 95-164: everything after the SSLv2 check — the strict handshake
`try` block, the exception classification, and on success the expiry check
and certificate dump.  Returns the findings emitted by this part and how
the method terminates. -/
def certPhase (min_expire_days : Int) (domain : String) (today : Int)
    (hs : HandshakeOutcome) : List Finding × AuditOutcome :=
  match hs with
  | HandshakeOutcome.sslError msg =>
    -- lines 103-133 with `isinstance(e, ssl.SSLError)` true:
    -- `invalid_cert` starts False and becomes True iff the derived details
    -- contain "CERTIFICATE".
    let details := deriveDetails msg
    if hasCertSubstring details = true then
      ([invalidCertFinding domain details], AuditOutcome.normal)
    else
      ([invalidConnFinding domain details], AuditOutcome.normal)
  | HandshakeOutcome.otherError _ =>
    -- lines 135-137: `except Exception` — debug log, return, no finding.
    ([], AuditOutcome.normal)
  | HandshakeOutcome.connected conn =>
    match match_hostname conn.cert domain with
    | HostnameCheck.valueError _ =>
      -- `ValueError` is not `ssl.SSLError` and not `CertificateError`, so
      -- it lands in the generic handler of lines 135-137: debug, return.
      ([], AuditOutcome.normal)
    | HostnameCheck.certificateError names =>
      -- lines 103-133 with `isinstance(e, CertificateError)` true:
      -- `invalid_cert = True`, details = str(e), no chunk processing.
      ([invalidCertFinding domain (certErrorText domain names)], AuditOutcome.normal)
    | HostnameCheck.ok =>
      -- lines 139-164, outside any try/except.
      match conn.cert.notAfter with
      | NotAfterField.missing => ([], AuditOutcome.uncaught "KeyError: notAfter")
      | NotAfterField.unparseable _ =>
        ([], AuditOutcome.uncaught "ValueError: cert_time_to_seconds")
      | NotAfterField.parsed expDay =>
        ((if daysUntilExpiry expDay today < min_expire_days then
            [soonExpireFinding domain]
          else []) ++ [certInfoFinding conn], AuditOutcome.normal)

/-- Model of `audit` (lines 59-164).  `protocol`/`domain`/`port` come from the
fuzzable request URL; `today` is `date.today()` as a day ordinal; `env` is
the collaborator behaviour for this target.  Returns the updated plugin
state, the findings emitted in order, and how the call terminates. -/
def audit (st : PluginState) (protocol domain : String) (port : Nat) (today : Int)
    (env : AuditEnv) : PluginState × List Finding × AuditOutcome :=
  if (pyUpper protocol != "HTTPS" || st.already_tested.contains domain) = true then
    (st, [], AuditOutcome.normal)
  else
    let st2 := PluginState.mk (domain :: st.already_tested) st.min_expire_days st.ca_file
    let legacy := if env.sslv2Accepted then [sslv2Finding domain] else []
    let cp := certPhase st.min_expire_days domain today env.handshake
    (st2, legacy ++ cp.1, cp.2)

/-- The findings emitted by one `audit` call. -/
def auditFindings (st : PluginState) (protocol domain : String) (port : Nat)
    (today : Int) (env : AuditEnv) : List Finding :=
  (audit st protocol domain port today env).2.1

/-- The plugin state after one `audit` call. -/
def auditState (st : PluginState) (protocol domain : String) (port : Nat)
    (today : Int) (env : AuditEnv) : PluginState :=
  (audit st protocol domain port today env).1

/-- How one `audit` call terminates. -/
def auditOutcome (st : PluginState) (protocol domain : String) (port : Nat)
    (today : Int) (env : AuditEnv) : AuditOutcome :=
  (audit st protocol domain port today env).2.2

/-- Number of findings of a given kind. -/
def countKind (fs : List Finding) (k : FindingKind) : Nat :=
  (fs.filter (fun f => f.kind == k)).length

/-- The certificate of the C1 scenario: SAN DNS `a.com`, `b.com` and
CommonName `c.com`. -/
def exampleCert : PeerCert :=
  PeerCert.mk (some [("DNS", "a.com"), ("DNS", "b.com")])
    (some [[("commonName", "c.com")]]) NotAfterField.missing false

/-- A certificate whose SAN DNS matches its host but whose dict carries no
`notAfter` key. -/
def noExpiryCert : PeerCert :=
  PeerCert.mk (some [("DNS", "x.com")]) none NotAfterField.missing false

/-- A certificate whose SAN DNS matches its host and whose dict carries a
`notAfter` value that `ssl.cert_time_to_seconds` cannot parse. -/
def badDateCert : PeerCert :=
  PeerCert.mk (some [("DNS", "x.com")]) none (NotAfterField.unparseable "Jun 35 2024") false

/-- An empty (falsy) certificate dict, as returned for an anonymous or
missing peer certificate. -/
def emptyCert : PeerCert :=
  PeerCert.mk none none NotAfterField.missing false

/-- A certificate whose SAN DNS entry is textually an IP literal. -/
def ipCert : PeerCert :=
  PeerCert.mk (some [("DNS", "10.0.0.1")]) none NotAfterField.missing false

/-- The connection object of the C1/C5 scenarios. -/
def exampleConn : TLSConn := TLSConn.mk exampleCert "r" "p" "c"

/-- The successful-handshake connection of the C7 scenario: SAN DNS
`good.example.com`, expiring on day 400. -/
def goodConn : TLSConn :=
  TLSConn.mk (PeerCert.mk (some [("DNS", "good.example.com")]) none
    (NotAfterField.parsed 400) false)
    "r" "p" "c"

theorem rmatchF_congr : ∀ (k n m : Nat) (ps : List RAtom) (ds : List Char),
    ps.length + ds.length ≤ k → ps.length + ds.length < n → ps.length + ds.length < m →
    rmatchF n ps ds = rmatchF m ps ds := by
  intro k
  induction k with
  | zero =>
    intro n m ps ds hk hn hm
    obtain ⟨n', rfl⟩ : ∃ n', n = n' + 1 := ⟨n - 1, by omega⟩
    obtain ⟨m', rfl⟩ : ∃ m', m = m' + 1 := ⟨m - 1, by omega⟩
    have hps : ps = [] := List.length_eq_zero.mp (by omega)
    have hds : ds = [] := List.length_eq_zero.mp (by omega)
    subst hps; subst hds; rfl
  | succ k ih =>
    intro n m ps ds hk hn hm
    obtain ⟨n', rfl⟩ : ∃ n', n = n' + 1 := ⟨n - 1, by omega⟩
    obtain ⟨m', rfl⟩ : ∃ m', m = m' + 1 := ⟨m - 1, by omega⟩
    cases ps with
    | nil => rfl
    | cons a ps' =>
      simp only [List.length_cons] at hk hn hm
      cases ds with
      | nil =>
        cases a with
        | lit c => rfl
        | dot => rfl
        | nonDotStar =>
          show rmatchF n' ps' [] = rmatchF m' ps' []
          exact ih n' m' ps' [] (by simp; omega) (by simp; omega) (by simp; omega)
        | nonDotPlus => rfl
      | cons d ds' =>
        simp only [List.length_cons] at hk hn hm
        cases a with
        | lit c =>
          show ((c.toLower == d.toLower) && rmatchF n' ps' ds')
              = ((c.toLower == d.toLower) && rmatchF m' ps' ds')
          rw [ih n' m' ps' ds' (by omega) (by omega) (by omega)]
        | dot =>
          show ((d == '.') && rmatchF n' ps' ds') = ((d == '.') && rmatchF m' ps' ds')
          rw [ih n' m' ps' ds' (by omega) (by omega) (by omega)]
        | nonDotStar =>
          show (rmatchF n' ps' (d :: ds') || (!(d == '.') && rmatchF n' (RAtom.nonDotStar :: ps') ds'))
              = (rmatchF m' ps' (d :: ds') || (!(d == '.') && rmatchF m' (RAtom.nonDotStar :: ps') ds'))
          rw [ih n' m' ps' (d :: ds') (by simp; omega) (by simp; omega) (by simp; omega),
            ih n' m' (RAtom.nonDotStar :: ps') ds' (by simp; omega) (by simp; omega) (by simp; omega)]
        | nonDotPlus =>
          show (!(d == '.') && (rmatchF n' ps' ds' || rmatchF n' (RAtom.nonDotPlus :: ps') ds'))
              = (!(d == '.') && (rmatchF m' ps' ds' || rmatchF m' (RAtom.nonDotPlus :: ps') ds'))
          rw [ih n' m' ps' ds' (by omega) (by omega) (by omega),
            ih n' m' (RAtom.nonDotPlus :: ps') ds' (by simp; omega) (by simp; omega) (by simp; omega)]

theorem rmatchF_big (n : Nat) (ps : List RAtom) (ds : List Char)
    (h : ps.length + ds.length < n) : rmatchF n ps ds = rmatch ps ds :=
  rmatchF_congr (ps.length + ds.length) n (ps.length + ds.length + 1) ps ds le_rfl h (by omega)

theorem rmatch_nil (ds : List Char) : rmatch [] ds = ds.isEmpty := by
  cases ds <;> rfl

theorem rmatch_lit_nil (c : Char) (ps : List RAtom) : rmatch (RAtom.lit c :: ps) [] = false := rfl

theorem rmatch_lit_cons (c : Char) (ps : List RAtom) (d : Char) (ds : List Char) :
    rmatch (RAtom.lit c :: ps) (d :: ds) = ((c.toLower == d.toLower) && rmatch ps ds) := by
  rw [← rmatchF_big ((RAtom.lit c :: ps).length + (d :: ds).length) ps ds
    (by simp only [List.length_cons]; omega)]
  rfl

theorem rmatch_dot_nil (ps : List RAtom) : rmatch (RAtom.dot :: ps) [] = false := rfl

theorem rmatch_dot_cons (ps : List RAtom) (d : Char) (ds : List Char) :
    rmatch (RAtom.dot :: ps) (d :: ds) = ((d == '.') && rmatch ps ds) := by
  rw [← rmatchF_big ((RAtom.dot :: ps).length + (d :: ds).length) ps ds
    (by simp only [List.length_cons]; omega)]
  rfl

theorem rmatch_star_nil (ps : List RAtom) :
    rmatch (RAtom.nonDotStar :: ps) [] = rmatch ps [] := by
  rw [← rmatchF_big ((RAtom.nonDotStar :: ps).length + ([] : List Char).length) ps []
    (by simp only [List.length_cons]; omega)]
  rfl

theorem rmatch_star_cons (ps : List RAtom) (d : Char) (ds : List Char) :
    rmatch (RAtom.nonDotStar :: ps) (d :: ds)
      = (rmatch ps (d :: ds) || (!(d == '.') && rmatch (RAtom.nonDotStar :: ps) ds)) := by
  rw [← rmatchF_big ((RAtom.nonDotStar :: ps).length + (d :: ds).length) ps (d :: ds)
      (by simp only [List.length_cons]; omega),
    ← rmatchF_big ((RAtom.nonDotStar :: ps).length + (d :: ds).length)
      (RAtom.nonDotStar :: ps) ds (by simp only [List.length_cons]; omega)]
  rfl

theorem rmatch_plus_nil (ps : List RAtom) : rmatch (RAtom.nonDotPlus :: ps) [] = false := rfl

theorem rmatch_plus_cons (ps : List RAtom) (d : Char) (ds : List Char) :
    rmatch (RAtom.nonDotPlus :: ps) (d :: ds)
      = (!(d == '.') && (rmatch ps ds || rmatch (RAtom.nonDotPlus :: ps) ds)) := by
  rw [← rmatchF_big ((RAtom.nonDotPlus :: ps).length + (d :: ds).length) ps ds
      (by simp only [List.length_cons]; omega),
    ← rmatchF_big ((RAtom.nonDotPlus :: ps).length + (d :: ds).length)
      (RAtom.nonDotPlus :: ps) ds (by simp only [List.length_cons]; omega)]
  rfl

theorem rmatch_plus_whole (ds : List Char) :
    rmatch [RAtom.nonDotPlus] ds = (!ds.isEmpty && ds.all (fun c => !(c == '.'))) := by
  induction ds with
  | nil => rfl
  | cons d ds ih =>
    rw [rmatch_plus_cons, rmatch_nil, ih]
    cases ds <;> simp [List.all_cons]

theorem rmatch_star_whole (ds : List Char) :
    rmatch [RAtom.nonDotStar] ds = ds.all (fun c => !(c == '.')) := by
  induction ds with
  | nil => rfl
  | cons d ds ih =>
    rw [rmatch_star_cons, rmatch_nil, ih]
    simp [List.all_cons]

theorem scanKey_eq_none_iff (key hostname : String) (l : List (String × String)) :
    scanKey key hostname l = none
      ↔ ∃ p ∈ l, p.1 = key ∧ pat_matches p.2 hostname = true := by
  induction l with
  | nil => simp [scanKey]
  | cons p rest ih =>
    obtain ⟨k, v⟩ := p
    simp only [scanKey]
    by_cases hk : k = key
    · by_cases hm : pat_matches v hostname = true
      · rw [if_pos hk, if_pos hm]
        exact iff_of_true rfl ⟨(k, v), List.mem_cons_self _ _, hk, hm⟩
      · rw [if_pos hk, if_neg hm]
        simp only [Option.map_eq_none', ih, List.mem_cons]
        constructor
        · rintro ⟨p, hp, hpk, hpm⟩
          exact ⟨p, Or.inr hp, hpk, hpm⟩
        · rintro ⟨p, hp | hp, hpk, hpm⟩
          · exfalso
            apply hm
            rw [hp] at hpk hpm
            rw [← hk] at hpk
            exact hpm
          · exact ⟨p, hp, hpk, hpm⟩
    · rw [if_neg hk]
      simp only [ih, List.mem_cons]
      constructor
      · rintro ⟨p, hp, hpk, hpm⟩
        exact ⟨p, Or.inr hp, hpk, hpm⟩
      · rintro ⟨p, hp | hp, hpk, hpm⟩
        · exfalso; apply hk; rw [hp] at hpk; exact hpk
        · exact ⟨p, hp, hpk, hpm⟩

theorem scanKey_some_eq (key hostname : String) :
    ∀ (l : List (String × String)) (m : List String),
      scanKey key hostname l = some m → m = keyValues key l := by
  intro l
  induction l with
  | nil =>
    intro m h
    simp only [scanKey, Option.some.injEq] at h
    simp [keyValues, ← h]
  | cons p rest ih =>
    obtain ⟨k, v⟩ := p
    intro m h
    simp only [scanKey] at h
    by_cases hk : k = key
    · rw [if_pos hk] at h
      by_cases hm : pat_matches v hostname = true
      · rw [if_pos hm] at h; exact absurd h (by simp)
      · rw [if_neg hm] at h
        obtain ⟨m', hm', rfl⟩ := Option.map_eq_some'.mp h
        rw [ih m' hm']
        simp [keyValues, List.filterMap_cons, hk]
    · rw [if_neg hk] at h
      simp [keyValues, List.filterMap_cons, hk]
      exact ih m h

theorem mem_keyValues {key : String} {l : List (String × String)} {p : String × String}
    (hp : p ∈ l) (hk : p.1 = key) : p.2 ∈ keyValues key l := by
  simp only [keyValues, List.mem_filterMap]
  exact ⟨p, hp, by rw [if_pos hk]⟩

theorem exists_keyValues (key hostname : String) (l : List (String × String)) :
    (∃ v ∈ keyValues key l, pat_matches v hostname = true)
      ↔ ∃ p ∈ l, p.1 = key ∧ pat_matches p.2 hostname = true := by
  constructor
  · rintro ⟨v, hv, hvm⟩
    simp only [keyValues, List.mem_filterMap] at hv
    obtain ⟨p, hp, hif⟩ := hv
    by_cases hk : p.1 = key
    · rw [if_pos hk] at hif
      obtain rfl := Option.some.injEq .. |>.mp hif
      exact ⟨p, hp, hk, hvm⟩
    · rw [if_neg hk] at hif
      exact absurd hif (by simp)
  · rintro ⟨p, hp, hpk, hpm⟩
    exact ⟨p.2, mem_keyValues hp hpk, hpm⟩

theorem certPhase_kind_ne_sslv2 (mexp : Int) (domain : String) (today : Int)
    (hs : HandshakeOutcome) :
    ∀ f ∈ (certPhase mexp domain today hs).1, f.kind ≠ FindingKind.ssl_v2 := by
  intro f hf
  cases hs with
  | sslError msg =>
    simp only [certPhase] at hf
    by_cases hc : hasCertSubstring (deriveDetails msg) = true
    · rw [if_pos hc] at hf
      simp only [List.mem_singleton] at hf
      subst hf
      simp [invalidCertFinding]
    · rw [if_neg hc] at hf
      simp only [List.mem_singleton] at hf
      subst hf
      simp [invalidConnFinding]
  | otherError msg => simp [certPhase] at hf
  | connected conn =>
    simp only [certPhase] at hf
    cases hmh : match_hostname conn.cert domain with
    | ok =>
      rw [hmh] at hf
      cases hna : conn.cert.notAfter with
      | missing => rw [hna] at hf; simp at hf
      | unparseable raw => rw [hna] at hf; simp at hf
      | parsed e =>
        rw [hna] at hf
        simp only [List.mem_append] at hf
        rcases hf with hf | hf
        · by_cases hs : daysUntilExpiry e today < mexp
          · rw [if_pos hs] at hf
            simp only [List.mem_singleton] at hf
            subst hf
            simp [soonExpireFinding]
          · rw [if_neg hs] at hf
            simp at hf
        · simp only [List.mem_singleton] at hf
          subst hf
          simp [certInfoFinding]
    | valueError m => rw [hmh] at hf; simp at hf
    | certificateError names =>
      rw [hmh] at hf
      simp only [List.mem_singleton] at hf
      subst hf
      simp [invalidCertFinding]

theorem auditGuard_false (st : PluginState) (protocol domain : String)
    (hproto : pyUpper protocol = "HTTPS")
    (hnew : st.already_tested.contains domain = false) :
    (pyUpper protocol != "HTTPS" || st.already_tested.contains domain) = false := by
  rw [hproto, hnew]
  simp

theorem audit_skip (st : PluginState) (protocol domain : String) (port : Nat) (today : Int)
    (env : AuditEnv)
    (h : (pyUpper protocol != "HTTPS" || st.already_tested.contains domain) = true) :
    audit st protocol domain port today env = (st, [], AuditOutcome.normal) := by
  unfold audit
  rw [if_pos h]

theorem audit_run (st : PluginState) (protocol domain : String) (port : Nat) (today : Int)
    (env : AuditEnv)
    (h : (pyUpper protocol != "HTTPS" || st.already_tested.contains domain) = false) :
    audit st protocol domain port today env =
      (PluginState.mk (domain :: st.already_tested) st.min_expire_days st.ca_file,
        (if env.sslv2Accepted then [sslv2Finding domain] else [])
          ++ (certPhase st.min_expire_days domain today env.handshake).1,
        (certPhase st.min_expire_days domain today env.handshake).2) := by
  unfold audit
  rw [if_neg (by rw [h]; simp)]

/-- Claim C1: for every certificate whose SAN list contains at least one DNS
entry and every hostname, `match_hostname` returns OK iff some compiled SAN
DNS pattern matches the hostname; otherwise it raises `CertificateError`
over exactly the collected SAN DNS values, and the subject (hence the
CommonName) is never consulted.  In particular, with SAN DNS
`["a.com", "b.com"]` and CommonName `c.com`, hostname `b.com` gives OK and
hostname `c.com` gives a mismatch over `["a.com", "b.com"]`, not OK. -/
theorem C1_san_precedence (cert : PeerCert) (hostname : String)
    (h : sanDNSValues cert ≠ []) :
    (match_hostname cert hostname = HostnameCheck.ok
        ↔ ∃ v ∈ sanDNSValues cert, pat_matches v hostname = true)
  ∧ ((∀ v ∈ sanDNSValues cert, pat_matches v hostname = false) →
        match_hostname cert hostname = HostnameCheck.certificateError (sanDNSValues cert))
  ∧ (∀ subj, match_hostname
        (PeerCert.mk cert.subjectAltName subj cert.notAfter cert.otherKeys) hostname
        = match_hostname cert hostname)
  ∧ match_hostname exampleCert "b.com" = HostnameCheck.ok
  ∧ match_hostname exampleCert "c.com" = HostnameCheck.certificateError ["a.com", "b.com"] := by
  have hsan : cert.subjectAltName.isSome = true := by
    rcases hs : cert.subjectAltName with _ | san
    · exfalso; apply h; simp [sanDNSValues, hs, keyValues]
    · rfl
  have core : ∀ (c2 : PeerCert), c2.subjectAltName = cert.subjectAltName →
      match_hostname c2 hostname
        = match scanKey "DNS" hostname (cert.subjectAltName.getD []) with
          | none => HostnameCheck.ok
          | some m => HostnameCheck.certificateError m := by
    intro c2 hc2
    have htru2 : c2.truthy = true := by
      simp [PeerCert.truthy, hc2, hsan]
    unfold match_hostname
    rw [htru2, hc2]
    simp only [Bool.true_eq_false, if_false]
    cases hscan : scanKey "DNS" hostname (cert.subjectAltName.getD []) with
    | none => rfl
    | some m =>
      have hm : m = sanDNSValues cert := scanKey_some_eq _ _ _ _ hscan
      have hne : m.isEmpty = false := by
        rw [hm]
        cases hsd : sanDNSValues cert with
        | nil => exact absurd hsd h
        | cons a t => rfl
      simp [hne]
  have hok := core cert rfl
  have hsubj : ∀ subj, match_hostname
      (PeerCert.mk cert.subjectAltName subj cert.notAfter cert.otherKeys) hostname
      = match_hostname cert hostname :=
    fun subj => (core (PeerCert.mk cert.subjectAltName subj cert.notAfter cert.otherKeys)
      rfl).trans (core cert rfl).symm
  cases hscan : scanKey "DNS" hostname (cert.subjectAltName.getD []) with
  | none =>
    rw [hscan] at hok
    refine ⟨?_, ?_, hsubj, by decide, by decide⟩
    · rw [hok]
      simp only [true_iff]
      exact (exists_keyValues _ _ _).mpr ((scanKey_eq_none_iff _ _ _).mp hscan)
    · intro hall
      exfalso
      obtain ⟨p, hp, hpk, hpm⟩ := (scanKey_eq_none_iff _ _ _).mp hscan
      have hmem : p.2 ∈ sanDNSValues cert := mem_keyValues hp hpk
      rw [hall p.2 hmem] at hpm
      exact Bool.false_ne_true hpm
  | some m =>
    rw [hscan] at hok
    have hm : m = sanDNSValues cert := scanKey_some_eq _ _ _ _ hscan
    refine ⟨?_, ?_, hsubj, by decide, by decide⟩
    · rw [hok]
      constructor
      · intro habs; exact absurd habs (by simp)
      · intro hex
        exfalso
        have hnone := (scanKey_eq_none_iff "DNS" hostname
          (cert.subjectAltName.getD [])).mpr ((exists_keyValues _ _ _).mp hex)
        rw [hscan] at hnone
        exact Option.some_ne_none m hnone
    · intro hall
      rw [hok, hm]

/-- Witness for C1 at the certificate of the claim scenario. -/
theorem C1_witness :
    sanDNSValues exampleCert ≠ []
  ∧ (match_hostname exampleCert "b.com" = HostnameCheck.ok
      ↔ ∃ v ∈ sanDNSValues exampleCert, pat_matches v "b.com" = true) :=
  ⟨by decide, (C1_san_precedence exampleCert "b.com" (by decide)).1⟩

/-- Claim C2: `_dnsname_to_pat` splits the DNS name on dots; a label that is
exactly `*` matches any single non-empty dotless label, a `*` inside a
label matches any run of zero or more non-dot characters, and the joined
pattern is anchored over the whole candidate and case-insensitive.  The
concrete wildcard examples of the claim hold. -/
theorem C2_wildcard_pattern :
    (∀ s : List Char, rmatch [RAtom.nonDotPlus] s = (!s.isEmpty && s.all (fun c => !(c == '.'))))
  ∧ (∀ s : List Char, rmatch [RAtom.nonDotStar] s = s.all (fun c => !(c == '.')))
  ∧ pat_matches "*.example.com" "foo.example.com" = true
  ∧ pat_matches "*.example.com" "foo.bar.example.com" = false
  ∧ pat_matches "*.example.com" "example.com" = false
  ∧ pat_matches "f*.example.com" "foo.example.com" = true
  ∧ pat_matches "f*.example.com" "bar.example.com" = false
  ∧ pat_matches "Example.COM" "example.com" = true
  ∧ pat_matches "example.com" "example.comx" = false :=
  ⟨rmatch_plus_whole, rmatch_star_whole, by decide, by decide, by decide, by decide,
    by decide, by decide, by decide⟩

/-- Claim C3: when the strict handshake raises an `ssl.SSLError`, the audit
classifies it as an invalid-certificate vulnerability (severity Low)
exactly when the derived error text contains `CERTIFICATE`, and otherwise
as an invalid-connection informational finding; exactly one finding of the
chosen kind is emitted and no certificate-info finding is emitted. -/
theorem C3_tls_error_classification (st : PluginState) (protocol domain : String)
    (port : Nat) (today : Int) (sslv2 : Bool) (msg : String)
    (hproto : pyUpper protocol = "HTTPS")
    (hnew : st.already_tested.contains domain = false) :
    countKind (auditFindings st protocol domain port today
        (AuditEnv.mk sslv2 (HandshakeOutcome.sslError msg))) FindingKind.certificate = 0
  ∧ countKind (auditFindings st protocol domain port today
        (AuditEnv.mk sslv2 (HandshakeOutcome.sslError msg))) FindingKind.invalid_ssl_cert
      = (if hasCertSubstring (deriveDetails msg) = true then 1 else 0)
  ∧ countKind (auditFindings st protocol domain port today
        (AuditEnv.mk sslv2 (HandshakeOutcome.sslError msg))) FindingKind.invalid_ssl_connect
      = (if hasCertSubstring (deriveDetails msg) = true then 0 else 1)
  ∧ (∀ f ∈ auditFindings st protocol domain port today
        (AuditEnv.mk sslv2 (HandshakeOutcome.sslError msg)),
        f.kind = FindingKind.invalid_ssl_cert → f.severity = Severity.low)
  ∧ (∀ f ∈ auditFindings st protocol domain port today
        (AuditEnv.mk sslv2 (HandshakeOutcome.sslError msg)),
        f.kind = FindingKind.invalid_ssl_connect → f.severity = Severity.info)
  ∧ auditOutcome st protocol domain port today
        (AuditEnv.mk sslv2 (HandshakeOutcome.sslError msg)) = AuditOutcome.normal := by
  have hg := auditGuard_false st protocol domain hproto hnew
  have hrun := audit_run st protocol domain port today
    (AuditEnv.mk sslv2 (HandshakeOutcome.sslError msg)) hg
  by_cases hc : hasCertSubstring (deriveDetails msg) = true <;>
    cases sslv2 <;>
      simp [auditFindings, auditOutcome, hrun, certPhase, hc, countKind,
        invalidCertFinding, invalidConnFinding, sslv2Finding]

/-- Witness for C3 at a concrete target and error message. -/
theorem C3_witness :
    pyUpper "https" = "HTTPS"
  ∧ countKind (auditFindings initialState "https" "x.com" 443 0
        (AuditEnv.mk false (HandshakeOutcome.sslError "boom"))) FindingKind.certificate = 0 :=
  ⟨by decide, (C3_tls_error_classification initialState "https" "x.com" 443 0 false "boom"
      (by decide) (by decide)).1⟩

/-- Claim C4 counterexample: with a certificate whose SAN DNS matches the
domain but whose dict has no `notAfter` key, the per-target audit escapes
with an uncaught `KeyError`, and with a present but unparseable `notAfter`
value it escapes with the uncaught `ValueError` of
`ssl.cert_time_to_seconds` (line 144 sits outside every try/except), so
the claim that no collaborator outcome can make `audit` propagate an
exception is false at these concrete inputs. -/
theorem C4_counterexample :
    auditOutcome initialState "https" "x.com" 443 0
        (AuditEnv.mk false (HandshakeOutcome.connected (TLSConn.mk noExpiryCert "r" "p" "c")))
      = AuditOutcome.uncaught "KeyError: notAfter"
  ∧ auditOutcome initialState "https" "x.com" 443 0
        (AuditEnv.mk false (HandshakeOutcome.connected (TLSConn.mk noExpiryCert "r" "p" "c")))
      ≠ AuditOutcome.normal
  ∧ auditOutcome initialState "https" "x.com" 443 0
        (AuditEnv.mk false (HandshakeOutcome.connected (TLSConn.mk badDateCert "r" "p" "c")))
      = AuditOutcome.uncaught "ValueError: cert_time_to_seconds"
  ∧ auditOutcome initialState "https" "x.com" 443 0
        (AuditEnv.mk false (HandshakeOutcome.connected (TLSConn.mk badDateCert "r" "p" "c")))
      ≠ AuditOutcome.normal := by decide

/-- Claim C4 (amended): every error raised while connecting, handshaking or
verifying the hostname is caught inside `audit` and converted to a finding
or dropped; but exceptions raised while processing the certificate content
after a successful, hostname-verified handshake are not caught — `audit`
returns normally for every collaborator outcome whose successful-handshake
certificate carries a `notAfter` value that parses (a missing key raises
`KeyError`, an unparseable value raises the `ValueError` of
`ssl.cert_time_to_seconds`, both uncaught). -/
theorem C4_no_escape_amended (st : PluginState) (protocol domain : String) (port : Nat)
    (today : Int) (env : AuditEnv)
    (h : ∀ conn, env.handshake = HandshakeOutcome.connected conn →
        conn.cert.notAfter.parseable = true) :
    auditOutcome st protocol domain port today env = AuditOutcome.normal := by
  by_cases hg : (pyUpper protocol != "HTTPS" || st.already_tested.contains domain) = true
  · simp [auditOutcome, audit_skip st protocol domain port today env hg]
  · have hg' : (pyUpper protocol != "HTTPS" || st.already_tested.contains domain) = false := by
      revert hg
      cases pyUpper protocol != "HTTPS" || st.already_tested.contains domain <;> simp
    rw [auditOutcome, audit_run st protocol domain port today env hg']
    cases henv : env.handshake with
    | sslError msg =>
      by_cases hc : hasCertSubstring (deriveDetails msg) = true <;>
        simp [certPhase, hc]
    | otherError msg => simp [certPhase]
    | connected conn =>
      simp only [certPhase]
      cases hmh : match_hostname conn.cert domain with
      | ok =>
        cases hna : conn.cert.notAfter with
        | missing =>
          have := h conn henv
          rw [hna] at this
          exact absurd this (by simp [NotAfterField.parseable])
        | unparseable raw =>
          have := h conn henv
          rw [hna] at this
          exact absurd this (by simp [NotAfterField.parseable])
        | parsed e => simp
      | valueError m => simp
      | certificateError names => simp

/-- Witness for the amended C4 at a concrete successful handshake whose
certificate carries a parseable `notAfter` value. -/
theorem C4_witness :
    auditOutcome initialState "https" "good.example.com" 443 0
        (AuditEnv.mk true (HandshakeOutcome.connected goodConn)) = AuditOutcome.normal :=
  C4_no_escape_amended initialState "https" "good.example.com" 443 0
    (AuditEnv.mk true (HandshakeOutcome.connected goodConn))
    (fun conn hc => by cases hc; rfl)

/-- Claim C5 counterexample: an empty peer certificate makes
`match_hostname` raise `ValueError`, which line 135 catches and drops with
only a debug log — the audit emits no finding at all (in particular no
invalid-certificate finding) and returns normally, so the claim that an
InvalidCertificate finding is emitted for an absent/empty certificate is
false at this concrete input. -/
theorem C5_counterexample :
    match_hostname emptyCert "x.com" = HostnameCheck.valueError "empty or no certificate"
  ∧ auditFindings initialState "https" "x.com" 443 0
      (AuditEnv.mk false (HandshakeOutcome.connected (TLSConn.mk emptyCert "r" "p" "c"))) = []
  ∧ countKind (auditFindings initialState "https" "x.com" 443 0
      (AuditEnv.mk false (HandshakeOutcome.connected (TLSConn.mk emptyCert "r" "p" "c"))))
      FindingKind.invalid_ssl_cert = 0
  ∧ auditOutcome initialState "https" "x.com" 443 0
      (AuditEnv.mk false (HandshakeOutcome.connected (TLSConn.mk emptyCert "r" "p" "c")))
      = AuditOutcome.normal := by decide

/-- Claim C5 (amended): an absent/empty peer certificate makes the identity
check fail with an explicit `ValueError` (not a silent pass), but that
error is caught by the generic handler and dropped, so no
invalid-certificate finding is emitted and the audit returns normally;
only a `CertificateError` identity failure (mismatch or no usable name
fields in a truthy certificate) is folded into the invalid-certificate
finding category. -/
theorem C5_empty_cert_amended :
    (∀ (cert : PeerCert) (hostname : String), cert.truthy = false →
        match_hostname cert hostname = HostnameCheck.valueError "empty or no certificate")
  ∧ (∀ (st : PluginState) (protocol domain : String) (port : Nat) (today : Int)
        (sslv2 : Bool) (conn : TLSConn), conn.cert.truthy = false →
        countKind (auditFindings st protocol domain port today
            (AuditEnv.mk sslv2 (HandshakeOutcome.connected conn)))
            FindingKind.invalid_ssl_cert = 0
      ∧ auditOutcome st protocol domain port today
            (AuditEnv.mk sslv2 (HandshakeOutcome.connected conn)) = AuditOutcome.normal)
  ∧ (∀ (st : PluginState) (protocol domain : String) (port : Nat) (today : Int)
        (sslv2 : Bool) (conn : TLSConn) (names : List String),
        pyUpper protocol = "HTTPS" → st.already_tested.contains domain = false →
        match_hostname conn.cert domain = HostnameCheck.certificateError names →
        countKind (auditFindings st protocol domain port today
            (AuditEnv.mk sslv2 (HandshakeOutcome.connected conn)))
            FindingKind.invalid_ssl_cert = 1) := by
  have hval : ∀ (cert : PeerCert) (hostname : String), cert.truthy = false →
      match_hostname cert hostname = HostnameCheck.valueError "empty or no certificate" := by
    intro cert hostname h
    unfold match_hostname
    rw [h]
    simp
  refine ⟨hval, ?_, ?_⟩
  · intro st protocol domain port today sslv2 conn h
    by_cases hg : (pyUpper protocol != "HTTPS" || st.already_tested.contains domain) = true
    · simp [auditFindings, auditOutcome,
        audit_skip st protocol domain port today _ hg, countKind]
    · have hg' : (pyUpper protocol != "HTTPS" || st.already_tested.contains domain) = false := by
        revert hg
        cases pyUpper protocol != "HTTPS" || st.already_tested.contains domain <;> simp
      have hrun := audit_run st protocol domain port today
        (AuditEnv.mk sslv2 (HandshakeOutcome.connected conn)) hg'
      cases sslv2 <;>
        simp [auditFindings, auditOutcome, hrun, certPhase, hval conn.cert domain h,
          countKind, sslv2Finding]
  · intro st protocol domain port today sslv2 conn names hproto hnew hmh
    have hg := auditGuard_false st protocol domain hproto hnew
    have hrun := audit_run st protocol domain port today
      (AuditEnv.mk sslv2 (HandshakeOutcome.connected conn)) hg
    cases sslv2 <;>
      simp [auditFindings, hrun, certPhase, hmh, countKind, sslv2Finding, invalidCertFinding]

/-- Witness for the amended C5: the empty certificate is dropped silently,
and the concrete SAN-mismatch certificate of the C1 scenario produces
exactly one invalid-certificate finding. -/
theorem C5_witness :
    emptyCert.truthy = false
  ∧ match_hostname emptyCert "w.com" = HostnameCheck.valueError "empty or no certificate"
  ∧ countKind (auditFindings initialState "https" "c.com" 443 0
        (AuditEnv.mk false (HandshakeOutcome.connected exampleConn)))
        FindingKind.invalid_ssl_cert = 1 :=
  ⟨by decide, C5_empty_cert_amended.1 emptyCert "w.com" (by decide),
    C5_empty_cert_amended.2.2 initialState "https" "c.com" 443 0 false exampleConn
      ["a.com", "b.com"] (by decide) (by decide) (by decide)⟩

/-- Claim C6: the dedup key is the domain only — when the domain is already
in the probed set, `audit` returns immediately with no findings, an
unchanged state and a normal outcome, for every collaborator behaviour and
every port; a fresh HTTPS audit records the domain exactly once; and after
any HTTPS audit of a domain, a second audit of the same domain (any port,
any day, any collaborator behaviour) performs no probe, emits no finding
and completes normally. -/
theorem C6_dedup (st : PluginState) (protocol domain : String) (p1 p2 : Nat)
    (today t2 : Int) (env env2 : AuditEnv) :
    (st.already_tested.contains domain = true →
        audit st protocol domain p1 today env = (st, [], AuditOutcome.normal))
  ∧ (pyUpper protocol = "HTTPS" → st.already_tested.contains domain = false →
        (auditState st protocol domain p1 today env).already_tested.count domain = 1)
  ∧ (pyUpper protocol = "HTTPS" →
        audit (auditState st protocol domain p1 today env) protocol domain p2 t2 env2
          = (auditState st protocol domain p1 today env, [], AuditOutcome.normal)) := by
  refine ⟨?_, ?_, ?_⟩
  · intro hc
    exact audit_skip st protocol domain p1 today env (by rw [hc]; simp)
  · intro hproto hnew
    have hg := auditGuard_false st protocol domain hproto hnew
    rw [auditState, audit_run st protocol domain p1 today env hg]
    have hnotmem : domain ∉ st.already_tested := by simpa using hnew
    simp [List.count_cons_self, List.count_eq_zero.mpr hnotmem]
  · intro hproto
    by_cases hc : st.already_tested.contains domain = true
    · have hskip := audit_skip st protocol domain p1 today env (by rw [hc]; simp)
      rw [auditState, hskip]
      exact audit_skip st protocol domain p2 t2 env2 (by rw [hc]; simp)
    · have hnew : st.already_tested.contains domain = false := by
        revert hc
        cases st.already_tested.contains domain <;> simp
      have hg := auditGuard_false st protocol domain hproto hnew
      rw [auditState, audit_run st protocol domain p1 today env hg]
      exact audit_skip _ protocol domain p2 t2 env2 (by simp [List.contains_cons])

/-- Witness for C6: a concrete already-probed domain is skipped, a fresh
domain is recorded exactly once, and a repeat audit of it (different port,
day and collaborator behaviour) is skipped. -/
theorem C6_witness :
    audit (PluginState.mk ["a.com"] 30 "ca.pem") "https" "a.com" 443 0
        (AuditEnv.mk false (HandshakeOutcome.otherError "refused"))
      = (PluginState.mk ["a.com"] 30 "ca.pem", [], AuditOutcome.normal)
  ∧ (auditState initialState "https" "b.com" 443 0
        (AuditEnv.mk false (HandshakeOutcome.otherError "refused"))).already_tested.count
        "b.com" = 1
  ∧ audit (auditState initialState "https" "b.com" 443 0
        (AuditEnv.mk false (HandshakeOutcome.otherError "refused"))) "https" "b.com" 8443 5
        (AuditEnv.mk true (HandshakeOutcome.sslError "late"))
      = (auditState initialState "https" "b.com" 443 0
          (AuditEnv.mk false (HandshakeOutcome.otherError "refused")), [],
         AuditOutcome.normal) :=
  ⟨(C6_dedup (PluginState.mk ["a.com"] 30 "ca.pem") "https" "a.com" 443 443 0 0
      (AuditEnv.mk false (HandshakeOutcome.otherError "refused"))
      (AuditEnv.mk false (HandshakeOutcome.otherError "refused"))).1 (by decide),
   (C6_dedup initialState "https" "b.com" 443 8443 0 5
      (AuditEnv.mk false (HandshakeOutcome.otherError "refused"))
      (AuditEnv.mk true (HandshakeOutcome.sslError "late"))).2.1 (by decide) (by decide),
   (C6_dedup initialState "https" "b.com" 443 8443 0 5
      (AuditEnv.mk false (HandshakeOutcome.otherError "refused"))
      (AuditEnv.mk true (HandshakeOutcome.sslError "late"))).2.2 (by decide)⟩

/-- Claim C7: `daysUntilExpiry` is negative for an already expired
certificate; on a successful, hostname-verified handshake a soon-expiring
informational finding is emitted iff the day count is strictly below the
configured threshold (default 30), while a certificate-info finding
containing the certificate dump is always emitted. -/
theorem C7_expiry (st : PluginState) (protocol domain : String) (port : Nat)
    (today : Int) (sslv2 : Bool) (conn : TLSConn) (expDay : Int)
    (hproto : pyUpper protocol = "HTTPS")
    (hnew : st.already_tested.contains domain = false)
    (hmatch : match_hostname conn.cert domain = HostnameCheck.ok)
    (hexp : conn.cert.notAfter = NotAfterField.parsed expDay) :
    (∀ e t : Int, e < t → daysUntilExpiry e t < 0)
  ∧ initialState.min_expire_days = 30
  ∧ countKind (auditFindings st protocol domain port today
        (AuditEnv.mk sslv2 (HandshakeOutcome.connected conn))) FindingKind.ssl_soon_expire
      = (if daysUntilExpiry expDay today < st.min_expire_days then 1 else 0)
  ∧ countKind (auditFindings st protocol domain port today
        (AuditEnv.mk sslv2 (HandshakeOutcome.connected conn))) FindingKind.certificate = 1
  ∧ (∀ f ∈ auditFindings st protocol domain port today
        (AuditEnv.mk sslv2 (HandshakeOutcome.connected conn)),
        f.kind = FindingKind.ssl_soon_expire → f.severity = Severity.info)
  ∧ (∃ f ∈ auditFindings st protocol domain port today
        (AuditEnv.mk sslv2 (HandshakeOutcome.connected conn)),
        f.kind = FindingKind.certificate ∧
          f.desc = "This is the information about the SSL certificate used in the " ++
            "target site:\n" ++ dump_ssl_info conn)
  ∧ auditOutcome st protocol domain port today
        (AuditEnv.mk sslv2 (HandshakeOutcome.connected conn)) = AuditOutcome.normal := by
  have hg := auditGuard_false st protocol domain hproto hnew
  have hrun := audit_run st protocol domain port today
    (AuditEnv.mk sslv2 (HandshakeOutcome.connected conn)) hg
  refine ⟨fun e t h => by simp [daysUntilExpiry]; omega, rfl, ?_, ?_, ?_, ?_, ?_⟩ <;>
    (by_cases hsoon : daysUntilExpiry expDay today < st.min_expire_days <;>
      cases sslv2 <;>
        simp [auditFindings, auditOutcome, hrun, certPhase, hmatch, hexp, hsoon, countKind,
          sslv2Finding, soonExpireFinding, certInfoFinding])

/-- Witness for C7 at the claim scenario: a certificate expiring in 400
days with the default 30-day threshold yields no soon-expiring finding and
exactly one certificate-info finding. -/
theorem C7_witness :
    match_hostname goodConn.cert "good.example.com" = HostnameCheck.ok
  ∧ countKind (auditFindings initialState "https" "good.example.com" 443 0
        (AuditEnv.mk false (HandshakeOutcome.connected goodConn))) FindingKind.ssl_soon_expire
      = (if daysUntilExpiry 400 0 < initialState.min_expire_days then 1 else 0)
  ∧ countKind (auditFindings initialState "https" "good.example.com" 443 0
        (AuditEnv.mk false (HandshakeOutcome.connected goodConn))) FindingKind.certificate
      = 1 :=
  ⟨by decide,
   (C7_expiry initialState "https" "good.example.com" 443 0 false goodConn 400
      (by decide) (by decide) (by decide) (by decide)).2.2.1,
   (C7_expiry initialState "https" "good.example.com" 443 0 false goodConn 400
      (by decide) (by decide) (by decide) (by decide)).2.2.2.1⟩

/-- Claim C8: the legacy SSLv2 probe emits exactly one severity-Low
insecure-legacy-protocol finding when the legacy handshake succeeds and
none when it fails (every probe error is swallowed), and the certificate
probe runs identically afterwards in both cases: apart from the leading
legacy finding, the findings, the final state and the outcome do not
depend on the legacy probe result. -/
theorem C8_legacy (st : PluginState) (protocol domain : String) (port : Nat)
    (today : Int) (hs : HandshakeOutcome)
    (hproto : pyUpper protocol = "HTTPS")
    (hnew : st.already_tested.contains domain = false) :
    countKind (auditFindings st protocol domain port today (AuditEnv.mk true hs))
        FindingKind.ssl_v2 = 1
  ∧ countKind (auditFindings st protocol domain port today (AuditEnv.mk false hs))
        FindingKind.ssl_v2 = 0
  ∧ (∀ f ∈ auditFindings st protocol domain port today (AuditEnv.mk true hs),
        f.kind = FindingKind.ssl_v2 → f.severity = Severity.low)
  ∧ auditFindings st protocol domain port today (AuditEnv.mk true hs)
      = sslv2Finding domain :: auditFindings st protocol domain port today (AuditEnv.mk false hs)
  ∧ auditState st protocol domain port today (AuditEnv.mk true hs)
      = auditState st protocol domain port today (AuditEnv.mk false hs)
  ∧ auditOutcome st protocol domain port today (AuditEnv.mk true hs)
      = auditOutcome st protocol domain port today (AuditEnv.mk false hs) := by
  have hg := auditGuard_false st protocol domain hproto hnew
  have hrunT := audit_run st protocol domain port today (AuditEnv.mk true hs) hg
  have hrunF := audit_run st protocol domain port today (AuditEnv.mk false hs) hg
  have hcp := certPhase_kind_ne_sslv2 st.min_expire_days domain today hs
  have hfilter : (certPhase st.min_expire_days domain today hs).1.filter
      (fun f => f.kind == FindingKind.ssl_v2) = [] := by
    rw [List.filter_eq_nil_iff]
    intro f hf
    simp only [beq_iff_eq]
    exact hcp f hf
  refine ⟨?_, ?_, ?_, ?_, ?_, ?_⟩
  · simp [auditFindings, hrunT, countKind, List.filter_append, hfilter, sslv2Finding]
  · simp [auditFindings, hrunF, countKind, hfilter]
  · intro f hf him
    rw [auditFindings, hrunT] at hf
    simp at hf
    rcases hf with hf | hf
    · subst hf
      simp [sslv2Finding]
    · exact absurd him (hcp f hf)
  · simp [auditFindings, hrunT, hrunF]
  · simp [auditState, hrunT, hrunF]
  · simp [auditOutcome, hrunT, hrunF]

/-- Witness for C8 at a concrete target whose strict handshake fails at the
socket level. -/
theorem C8_witness :
    countKind (auditFindings initialState "https" "l.com" 443 0
        (AuditEnv.mk true (HandshakeOutcome.otherError "refused"))) FindingKind.ssl_v2 = 1
  ∧ countKind (auditFindings initialState "https" "l.com" 443 0
        (AuditEnv.mk false (HandshakeOutcome.otherError "refused"))) FindingKind.ssl_v2 = 0 :=
  ⟨(C8_legacy initialState "https" "l.com" 443 0 (HandshakeOutcome.otherError "refused")
      (by decide) (by decide)).1,
   (C8_legacy initialState "https" "l.com" 443 0 (HandshakeOutcome.otherError "refused")
      (by decide) (by decide)).2.1⟩

/-- Claim C9 counterexample: an IP-literal hostname is not always rejected —
a certificate whose SAN DNS entry textually equals the IP literal matches
it, both at the pattern level and through `match_hostname`, so the claim
that hostname matching always fails for IP literals is false at this
concrete input. -/
theorem C9_counterexample :
    pat_matches "10.0.0.1" "10.0.0.1" = true
  ∧ match_hostname ipCert "10.0.0.1" = HostnameCheck.ok := by decide

/-- Claim C9 (amended): IP-literal hostnames receive no special treatment —
they are matched textually like any DNS name, so a certificate name
textually equal to the IP literal does match; what never happens is a
match through a SAN entry whose type is not `DNS` (such as `IP Address`),
because only `DNS`-typed SAN entries are consulted. -/
theorem C9_ip_literal_amended :
    pat_matches "10.0.0.1" "10.0.0.1" = true
  ∧ match_hostname ipCert "10.0.0.1" = HostnameCheck.ok
  ∧ (∀ (hostname v : String),
        match_hostname (PeerCert.mk (some [("IP Address", v)]) none
            NotAfterField.missing false) hostname
          = HostnameCheck.certificateError []) := by
  refine ⟨by decide, by decide, ?_⟩
  intro hostname v
  unfold match_hostname
  simp [PeerCert.truthy, scanKey, cnScan]

/-- Claim C10: when the `ssl.SSLError` text splits on `:` into exactly 7
fields, only the last two fields rejoined with `:` are used as the
diagnostic detail; for any other field count the full message is used
unchanged; and both the `CERTIFICATE` classification test and the emitted
finding use that derived detail text. -/
theorem C10_error_chunks :
    (∀ (msg : String) (c0 c1 c2 c3 c4 c5 c6 : List Char),
        splitOnChar ':' msg.data = [c0, c1, c2, c3, c4, c5, c6] →
        deriveDetails msg = String.mk (c5 ++ ':' :: c6))
  ∧ (∀ msg : String, (splitOnChar ':' msg.data).length ≠ 7 → deriveDetails msg = msg)
  ∧ (∀ (st : PluginState) (protocol domain : String) (port : Nat) (today : Int)
        (sslv2 : Bool) (msg : String),
        pyUpper protocol = "HTTPS" → st.already_tested.contains domain = false →
        auditFindings st protocol domain port today
            (AuditEnv.mk sslv2 (HandshakeOutcome.sslError msg))
          = (if sslv2 then [sslv2Finding domain] else [])
            ++ [if hasCertSubstring (deriveDetails msg) = true then
                  invalidCertFinding domain (deriveDetails msg)
                else invalidConnFinding domain (deriveDetails msg)]) := by
  refine ⟨?_, ?_, ?_⟩
  · intro msg c0 c1 c2 c3 c4 c5 c6 h
    unfold deriveDetails
    rw [h]
  · intro msg h
    unfold deriveDetails
    generalize hl : splitOnChar ':' msg.data = l at h
    rcases l with _ | ⟨a0, _ | ⟨a1, _ | ⟨a2, _ | ⟨a3, _ | ⟨a4, _ | ⟨a5, _ | ⟨a6, t⟩⟩⟩⟩⟩⟩⟩
    · rfl
    · rfl
    · rfl
    · rfl
    · rfl
    · rfl
    · rfl
    · cases t with
      | nil => exact absurd (by simp) h
      | cons a7 t' => rfl
  · intro st protocol domain port today sslv2 msg hproto hnew
    have hg := auditGuard_false st protocol domain hproto hnew
    have hrun := audit_run st protocol domain port today
      (AuditEnv.mk sslv2 (HandshakeOutcome.sslError msg)) hg
    by_cases hc : hasCertSubstring (deriveDetails msg) = true <;>
      cases sslv2 <;>
        simp [auditFindings, hrun, certPhase, hc]

/-- Witness for C10 at concrete error strings. -/
theorem C10_witness :
    deriveDetails "0:1:2:3:4:5:6" = String.mk (['5'] ++ ':' :: ['6'])
  ∧ deriveDetails "a:b" = "a:b"
  ∧ auditFindings initialState "https" "z.com" 443 0
        (AuditEnv.mk false (HandshakeOutcome.sslError "0:1:2:3:4:5:6"))
      = (if false then [sslv2Finding "z.com"] else [])
        ++ [if hasCertSubstring (deriveDetails "0:1:2:3:4:5:6") = true then
              invalidCertFinding "z.com" (deriveDetails "0:1:2:3:4:5:6")
            else invalidConnFinding "z.com" (deriveDetails "0:1:2:3:4:5:6")] :=
  ⟨C10_error_chunks.1 "0:1:2:3:4:5:6" ['0'] ['1'] ['2'] ['3'] ['4'] ['5'] ['6'] (by decide),
   C10_error_chunks.2.1 "a:b" (by decide),
   C10_error_chunks.2.2 initialState "https" "z.com" 443 0 false "0:1:2:3:4:5:6"
     (by decide) (by decide)⟩
